import Mathlib

/-!
# Sprite registry of `graphics.c`

A shallow embedding of the texture registry, sprite registry, frame table and draw
operation of `src/graphics.c`, followed by theorems about them.

Modelling conventions.

* A C `int` is an `Int`; every `+`, `-`, `++` of the source is followed by `wrap32`
  (two's-complement wrap-around to 32 bits), and `%` is the truncating `Int.tmod`.
* The global arrays are index-addressed stores `Int → α`.  An index outside the declared
  array stays at its own index in the store, where the C program would access a
  neighbouring object; the predicate `InBounds` tells the calls whose indices all lie
  inside the arrays, and `run_checked` gives a state only to sequences of such calls.
* A `char` buffer or a `char *` argument is a `List Char`; the C string it holds is the
  part before the first NUL (`cstr`).
* The rendering backend is not reimplemented.  What `SDL_LoadBMP` followed by
  `SDL_CreateTextureFromSurface` would produce for a call is an argument
  (`none`: the file cannot be decoded), and the backend calls and diagnostics a call
  issues are returned as a list of `Event`s.
-/

namespace Graphics

/-! ## Constants (lines 1-4) -/

def GRAPHICS_MAX_TEXTURES : Int := 4
def GRAPHICS_MAX_SPRITES : Int := 64
def GRAPHICS_MAX_SPRITE_FRAMES : Int := 256
def GRAPHICS_MAX_NAME_LENGTH : Nat := 32

/-! ## Machine integers -/

def INT_MIN : Int := -2147483648
def INT_MAX : Int := 2147483647

/-- Two's-complement wrap-around of an integer to the range of a 32-bit `int`. -/
def wrap32 (x : Int) : Int := (x + 2147483648) % 4294967296 - 2147483648

/-- Representable as a C `int`. -/
def IsInt (x : Int) : Prop := INT_MIN ≤ x ∧ x ≤ INT_MAX

instance (x : Int) : Decidable (IsInt x) := by unfold IsInt; infer_instance

/-! ## Data model (lines 6-32) -/

/-- Backend texture handle (`SDL_Texture *`), an opaque identifier. -/
abbrev Handle := Nat

structure SDL_Point where
  x : Int
  y : Int
deriving DecidableEq, Repr

structure SDL_Rect where
  x : Int
  y : Int
  w : Int
  h : Int
deriving DecidableEq, Repr

structure SpriteFrame where
  origin : SDL_Point
  bounds : SDL_Rect
deriving DecidableEq, Repr

structure Sprite where
  maximum_frame_number : Int
  current_frame_number : Int
  frame_offset : Int
  texture_index : Int
deriving DecidableEq, Repr

/-- Module internal state (lines 20-32), the renderer pointer left to the backend. -/
structure State where
  texture_count : Int
  texture_names : Int → List Char
  texture_table : Int → Handle
  sprite_count : Int
  sprite_names : Int → List Char
  sprite_table : Int → Sprite
  sprite_frame_count : Int
  sprite_frame_table : Int → SpriteFrame

/-- Diagnostics printed with `printf`, one constructor per message of the source. -/
inductive Diag where
  | texture_storage_full
  | cant_find_file
  | invalid_texture_index
  | sprite_limit_reached
  | not_enough_frame_storage
  | add_frame_invalid_sprite_index
  | maximum_frame_number_reached
  | draw_invalid_sprite_index
  | no_animation_frames
deriving DecidableEq, Repr

/-- Observable actions of a call: diagnostics and backend calls. -/
inductive Event where
  | printf (d : Diag)
  | SDL_RenderCopy (texture : Handle) (src : SDL_Rect) (dst : SDL_Rect)
  | SDL_DestroyTexture (texture : Handle)
  | SDL_DestroyRenderer
deriving DecidableEq, Repr

/-- Outcome of a function returning `int`: return value, state after, events issued. -/
structure Result where
  ret : Int
  st : State
  out : List Event

/-- Assignment `table[i] = v`.  The store has no length: it is the array for the indices
inside the declared array, and an index outside it is kept apart from every other
object.  The C array has no such element, so what the store says of a call is what the
source does only when the call's indices are in range; `InBounds` below says when they
are. -/
def store {α : Type} (table : Int → α) (i : Int) (v : α) : Int → α :=
  fun j => if j = i then v else table j

/-! ## Strings -/

def NUL : Char := Char.ofNat 0

/-- The C string held by a buffer: the characters before the first NUL. -/
def cstr (buf : List Char) : List Char := buf.takeWhile (fun c => c != NUL)

/-- Test `strcmp(a, b) == 0`. -/
def strcmp_eq (a b : List Char) : Bool := cstr a == cstr b

/-- Read `p[i]` of a string argument; the terminator is read at and after its end. -/
def char_at (p : List Char) (i : Nat) : Char := p.getD i NUL

/-- Name copy of lines 104-110 and 152-158:
`for(i=0; i < GRAPHICS_MAX_NAME_LENGTH-1; i++) { if(src[i] == 0); break; dst[i] = src[i]; }
dst[i] = 0;`.
The `if` controls the empty statement `;`, so the `break` that follows is executed
in the first iteration whatever `src[0]` is, the assignment after it is never reached
and the loop is left with `i = 0`. -/
def copy_name (src dst : List Char) : List Char :=
  let i : Nat := 0
  let i : Nat :=
    if i < GRAPHICS_MAX_NAME_LENGTH - 1 then
      -- if(src[i] == 0) ;
      let _skip : Unit := if char_at src i = NUL then () else ()
      -- break;
      i
    else i
  dst.set i NUL

/-! ## Operations -/

/-- State of the zero-initialised globals at program start. -/
def boot : State where
  texture_count := 0
  texture_names := fun _ => List.replicate GRAPHICS_MAX_NAME_LENGTH NUL
  texture_table := fun _ => 0
  sprite_count := 0
  sprite_names := fun _ => List.replicate GRAPHICS_MAX_NAME_LENGTH NUL
  sprite_table := fun _ => ⟨0, 0, 0, 0⟩
  sprite_frame_count := 0
  sprite_frame_table := fun _ => ⟨⟨0, 0⟩, ⟨0, 0, 0, 0⟩⟩

/-- Function `graphics_init` (lines 34-42): the three counts are reset, the tables are
not touched. -/
def graphics_init (s : State) : State :=
  { s with texture_count := 0, sprite_count := 0, sprite_frame_count := 0 }

/-- Loop of lines 71-78, from index `i` on: the first index whose stored key compares
equal to `path`, or `-1`. -/
def find_texture (s : State) (path : List Char) : Nat → Int → Int
  | 0, _ => -1
  | fuel + 1, i =>
    if i < s.texture_count then
      if strcmp_eq path (s.texture_names i) then i
      else find_texture s path fuel (wrap32 (i + 1))
    else -1

/-- Function `graphics_load_texture` (lines 66-119).  `tmp` is what the backend yields
for `path` in this call: `none` when `SDL_LoadBMP` returns `NULL`, `some h` when the
file decodes and `SDL_CreateTextureFromSurface` returns the handle `h`. -/
def graphics_load_texture (s : State) (path : List Char) (tmp : Option Handle) : Result :=
  let texture_index := find_texture s path s.texture_count.toNat 0
  if texture_index = -1 then
    if s.texture_count > GRAPHICS_MAX_TEXTURES then
      ⟨texture_index, s, [Event.printf Diag.texture_storage_full]⟩
    else
      match tmp with
      | none => ⟨texture_index, s, [Event.printf Diag.cant_find_file]⟩
      | some h =>
        let s1 := { s with texture_table := store s.texture_table s.texture_count h }
        let texture_index := s1.texture_count
        let dst := s1.texture_names s1.texture_count
        let s2 := { s1 with
          texture_names := store s1.texture_names s1.texture_count (copy_name path dst) }
        ⟨texture_index, { s2 with texture_count := wrap32 (s2.texture_count + 1) }, []⟩
  else ⟨texture_index, s, []⟩

/-- Function `graphics_add_sprite` (lines 121-171). -/
def graphics_add_sprite (s : State) (sprite_name : List Char) (frame_number : Int)
    (texture_index : Int) : Result :=
  let sprite_index : Int := -1
  if texture_index < 0 ∨ texture_index > wrap32 (s.texture_count - 1) then
    ⟨sprite_index, s, [Event.printf Diag.invalid_texture_index]⟩
  else if s.sprite_count ≥ GRAPHICS_MAX_SPRITES then
    ⟨sprite_index, s, [Event.printf Diag.sprite_limit_reached]⟩
  else if wrap32 (s.sprite_frame_count + frame_number) > GRAPHICS_MAX_SPRITE_FRAMES then
    ⟨sprite_index, s, [Event.printf Diag.not_enough_frame_storage]⟩
  else
    let sprite : Sprite :=
      { current_frame_number := 0
        maximum_frame_number := frame_number
        frame_offset := s.sprite_frame_count
        texture_index := texture_index }
    let s1 := { s with sprite_table := store s.sprite_table s.sprite_count sprite }
    let s2 := { s1 with
      sprite_names := store s1.sprite_names s1.sprite_count
        (copy_name sprite_name (s1.sprite_names s1.sprite_count)) }
    let sprite_index := s2.sprite_count
    let s3 := { s2 with sprite_frame_count := wrap32 (s2.sprite_frame_count + frame_number) }
    ⟨sprite_index, { s3 with sprite_count := wrap32 (s3.sprite_count + 1) }, []⟩

/-- Function `graphics_add_sprite_frame` (lines 173-203). -/
def graphics_add_sprite_frame (s : State) (sprite_index origin_x origin_y frame_x frame_y
    frame_width frame_height : Int) : State × List Event :=
  if sprite_index < 0 ∨ sprite_index > wrap32 (s.sprite_count - 1) then
    (s, [Event.printf Diag.add_frame_invalid_sprite_index])
  else
    let sprite := s.sprite_table sprite_index
    if sprite.current_frame_number ≥ sprite.maximum_frame_number then
      (s, [Event.printf Diag.maximum_frame_number_reached])
    else
      let slot := wrap32 (sprite.frame_offset + sprite.current_frame_number)
      let sprite_frame : SpriteFrame :=
        { origin := ⟨origin_x, origin_y⟩
          bounds := ⟨frame_x, frame_y, frame_width, frame_height⟩ }
      let s1 := { s with sprite_frame_table := store s.sprite_frame_table slot sprite_frame }
      let sprite1 := { sprite with
        current_frame_number := wrap32 (sprite.current_frame_number + 1) }
      ({ s1 with sprite_table := store s1.sprite_table sprite_index sprite1 }, [])

/-- Frame selection of lines 221-228: the value of `frame_index` after the `if`, for a
sprite with `n = current_frame_number` and the selector `frame_index` passed in. -/
def resolve_frame_index (n frame_index : Int) : Int :=
  if frame_index < 0 then wrap32 (n + Int.tmod frame_index n)
  else Int.tmod frame_index n

/-- Function `graphics_draw_sprite` (lines 205-239); it assigns to no global, so only the
events are returned. -/
def graphics_draw_sprite (s : State) (sprite_index x y frame_index : Int) : List Event :=
  if sprite_index < 0 ∨ sprite_index ≥ s.sprite_count then
    [Event.printf Diag.draw_invalid_sprite_index]
  else
    let sprite := s.sprite_table sprite_index
    if sprite.current_frame_number = 0 then
      [Event.printf Diag.no_animation_frames]
    else
      let frame_index := resolve_frame_index sprite.current_frame_number frame_index
      let sprite_frame := s.sprite_frame_table (wrap32 (sprite.frame_offset + frame_index))
      let dst_rect : SDL_Rect :=
        { x := wrap32 (x - sprite_frame.origin.x)
          y := wrap32 (y - sprite_frame.origin.y)
          w := sprite_frame.bounds.w
          h := sprite_frame.bounds.h }
      [Event.SDL_RenderCopy (s.texture_table sprite.texture_index) sprite_frame.bounds dst_rect]

/-- Loop of lines 46-50, entered with the loop variable at `i`: while `i >= 0`, the
texture at index `i` is destroyed, `texture_count` is decremented and `i` goes down by
one.  The first argument bounds the number of iterations. -/
def quit_loop (s : State) : Nat → Int → State × List Event
  | 0, _ => (s, [])
  | fuel + 1, i =>
    if i ≥ 0 then
      let ev := Event.SDL_DestroyTexture (s.texture_table i)
      let s1 := { s with texture_count := wrap32 (s.texture_count - 1) }
      let r := quit_loop s1 fuel (wrap32 (i - 1))
      (r.1, ev :: r.2)
    else (s, [])

/-- Function `graphics_quit` (lines 44-53).  The loop variable starts at
`texture_count - 1` and the loop body runs once for each value from there down to `0`,
which is `i + 1` times. -/
def graphics_quit (s : State) : State × List Event :=
  let i := wrap32 (s.texture_count - 1)
  let r := quit_loop s (i + 1).toNat i
  (r.1, r.2 ++ [Event.SDL_DestroyRenderer])

/-! ## Call sequences -/

/-- The six frame arguments of `graphics_add_sprite_frame`, passed as one record. -/
def append_frame (s : State) (sprite_index : Int) (f : SpriteFrame) : State × List Event :=
  graphics_add_sprite_frame s sprite_index f.origin.x f.origin.y
    f.bounds.x f.bounds.y f.bounds.w f.bounds.h


/-- A call of one of the four registry operations with its arguments. -/
inductive Op where
  | load_texture (path : List Char) (tmp : Option Handle)
  | add_sprite (sprite_name : List Char) (frame_number texture_index : Int)
  | add_sprite_frame (sprite_index origin_x origin_y frame_x frame_y
      frame_width frame_height : Int)
  | draw_sprite (sprite_index x y frame_index : Int)

/-- Every `int` argument of the call is representable as a C `int`. -/
def Op.WellTyped : Op → Prop
  | Op.load_texture _ _ => True
  | Op.add_sprite _ frame_number texture_index => IsInt frame_number ∧ IsInt texture_index
  | Op.add_sprite_frame sprite_index origin_x origin_y frame_x frame_y frame_width
      frame_height =>
    IsInt sprite_index ∧ IsInt origin_x ∧ IsInt origin_y ∧ IsInt frame_x ∧ IsInt frame_y ∧
      IsInt frame_width ∧ IsInt frame_height
  | Op.draw_sprite sprite_index x y frame_index =>
    IsInt sprite_index ∧ IsInt x ∧ IsInt y ∧ IsInt frame_index

instance (op : Op) : Decidable op.WellTyped := by
  cases op <;> unfold Op.WellTyped <;> infer_instance

/-- State after one call. -/
def step (s : State) : Op → State
  | Op.load_texture path tmp => (graphics_load_texture s path tmp).st
  | Op.add_sprite sprite_name frame_number texture_index =>
    (graphics_add_sprite s sprite_name frame_number texture_index).st
  | Op.add_sprite_frame sprite_index origin_x origin_y frame_x frame_y frame_width
      frame_height =>
    (graphics_add_sprite_frame s sprite_index origin_x origin_y frame_x frame_y
      frame_width frame_height).1
  | Op.draw_sprite _ _ _ _ => s

/-- State after a sequence of calls. -/
def run (s : State) (ops : List Op) : State := ops.foldl step s


/-- Frame-table slice `[frame_offset, frame_offset + maximum_frame_number)` of a sprite. -/
def in_slice (sp : Sprite) (slot : Int) : Prop :=
  sp.frame_offset ≤ slot ∧ slot < sp.frame_offset + sp.maximum_frame_number

instance (sp : Sprite) (slot : Int) : Decidable (in_slice sp slot) := by
  unfold in_slice; infer_instance

/-! ## Array bounds and defined executions

The arrays of lines 24-32 have 4, 64 and 256 elements.  An access outside an array is
undefined in C and lands on whatever object is stored next to it, so the stores above
describe a call exactly only if every element the call accesses lies inside its array.
The predicates below state this for each operation, following the control flow of its
source; `step_checked` and `run_checked` give a result only to such calls. -/

/-- Index `i` denotes an element of an array declared with `len` elements. -/
def in_array (len i : Int) : Prop := 0 ≤ i ∧ i < len

instance (len i : Int) : Decidable (in_array len i) := by
  unfold in_array; infer_instance

/-- Array accesses of `graphics_load_texture`.  The lookup loop reads `texture_names[i]`
for every `i` up to the index it returns, or for every `i < texture_count` when it finds
nothing; a call that stores a new texture writes `texture_table[texture_count]` and
`texture_names[texture_count]`. -/
def load_texture_in_bounds (s : State) (path : List Char) (tmp : Option Handle) : Prop :=
  let texture_index := find_texture s path s.texture_count.toNat 0
  if texture_index = -1 then
    s.texture_count ≤ GRAPHICS_MAX_TEXTURES ∧
    (if s.texture_count > GRAPHICS_MAX_TEXTURES then True
     else if tmp.isSome then in_array GRAPHICS_MAX_TEXTURES s.texture_count
     else True)
  else texture_index < GRAPHICS_MAX_TEXTURES

/-- Array accesses of `graphics_add_sprite`: a call that passes the three checks writes
`sprite_table[sprite_count]` and `sprite_names[sprite_count]`. -/
def add_sprite_in_bounds (s : State) (frame_number texture_index : Int) : Prop :=
  if texture_index < 0 ∨ texture_index > wrap32 (s.texture_count - 1) then True
  else if s.sprite_count ≥ GRAPHICS_MAX_SPRITES then True
  else if wrap32 (s.sprite_frame_count + frame_number) > GRAPHICS_MAX_SPRITE_FRAMES then True
  else in_array GRAPHICS_MAX_SPRITES s.sprite_count

/-- Array accesses of `graphics_add_sprite_frame`: a call with an accepted index reads
`sprite_table[sprite_index]`, and when the frame is accepted it writes
`sprite_frame_table[frame_offset + current_frame_number]`. -/
def add_sprite_frame_in_bounds (s : State) (sprite_index : Int) : Prop :=
  if sprite_index < 0 ∨ sprite_index > wrap32 (s.sprite_count - 1) then True
  else
    in_array GRAPHICS_MAX_SPRITES sprite_index ∧
    (let sprite := s.sprite_table sprite_index
     if sprite.current_frame_number ≥ sprite.maximum_frame_number then True
     else in_array GRAPHICS_MAX_SPRITE_FRAMES
       (wrap32 (sprite.frame_offset + sprite.current_frame_number)))

/-- Array accesses of `graphics_draw_sprite`: a call with an accepted index reads
`sprite_table[sprite_index]`, and when the sprite has frames it reads
`sprite_frame_table[frame_offset + frame_index]` and
`texture_table[texture_index]`. -/
def draw_sprite_in_bounds (s : State) (sprite_index frame_index : Int) : Prop :=
  if sprite_index < 0 ∨ sprite_index ≥ s.sprite_count then True
  else
    in_array GRAPHICS_MAX_SPRITES sprite_index ∧
    (let sprite := s.sprite_table sprite_index
     if sprite.current_frame_number = 0 then True
     else
       in_array GRAPHICS_MAX_SPRITE_FRAMES
         (wrap32 (sprite.frame_offset +
           resolve_frame_index sprite.current_frame_number frame_index)) ∧
       in_array GRAPHICS_MAX_TEXTURES sprite.texture_index)

instance (s : State) (path : List Char) (tmp : Option Handle) :
    Decidable (load_texture_in_bounds s path tmp) := by
  unfold load_texture_in_bounds; infer_instance

instance (s : State) (frame_number texture_index : Int) :
    Decidable (add_sprite_in_bounds s frame_number texture_index) := by
  unfold add_sprite_in_bounds; infer_instance

instance (s : State) (sprite_index : Int) :
    Decidable (add_sprite_frame_in_bounds s sprite_index) := by
  unfold add_sprite_frame_in_bounds; infer_instance

instance (s : State) (sprite_index frame_index : Int) :
    Decidable (draw_sprite_in_bounds s sprite_index frame_index) := by
  unfold draw_sprite_in_bounds; infer_instance

/-- Every array access of the call, made in state `s`, lies inside its array. -/
def InBounds (s : State) : Op → Prop
  | Op.load_texture path tmp => load_texture_in_bounds s path tmp
  | Op.add_sprite _ frame_number texture_index =>
    add_sprite_in_bounds s frame_number texture_index
  | Op.add_sprite_frame sprite_index _ _ _ _ _ _ => add_sprite_frame_in_bounds s sprite_index
  | Op.draw_sprite sprite_index _ _ frame_index =>
    draw_sprite_in_bounds s sprite_index frame_index

instance (s : State) (op : Op) : Decidable (InBounds s op) := by
  cases op <;> unfold InBounds <;> infer_instance

/-- State after one call, defined only when the call stays inside the arrays. -/
def step_checked (s : State) (op : Op) : Option State :=
  if InBounds s op then some (step s op) else none

/-- State after a sequence of calls, defined only when every call stays inside the
arrays. -/
def run_checked : State → List Op → Option State
  | s, [] => some s
  | s, op :: rest =>
    match step_checked s op with
    | none => none
    | some s1 => run_checked s1 rest

/-- States reached from `graphics_init` by well-typed calls of the four operations that
all stay inside the arrays. -/
def Reachable (s : State) : Prop :=
  ∃ (s0 : State) (ops : List Op),
    (∀ op ∈ ops, op.WellTyped) ∧ run_checked (graphics_init s0) ops = some s

def hero_bmp : List Char := "hero.bmp".toList
def hero_walk : List Char := "hero_walk".toList

/-- Registry after `graphics_init`, one load of `hero.bmp` (handle 7), the sprite
`hero_walk` with four frames declared, and its four frames appended. -/
def hero_state : State :=
  run (graphics_init boot)
    [Op.load_texture hero_bmp (some 7),
     Op.add_sprite hero_walk 4 0,
     Op.add_sprite_frame 0 8 16 0 0 16 16,
     Op.add_sprite_frame 0 8 16 16 0 16 16,
     Op.add_sprite_frame 0 8 16 32 0 16 16,
     Op.add_sprite_frame 0 8 16 48 0 16 16]

/-- Four loads of four different decodable files after `graphics_init`. -/
def four_textures : State :=
  run (graphics_init boot)
    [Op.load_texture "a.bmp".toList (some 1),
     Op.load_texture "b.bmp".toList (some 2),
     Op.load_texture "c.bmp".toList (some 3),
     Op.load_texture "d.bmp".toList (some 4)]

/-- Calls creating three sprites on one texture, the second with a negative
`frame_number`. -/
def negative_budget_ops : List Op :=
  [Op.load_texture hero_bmp (some 7),
   Op.add_sprite "a".toList 5 0,
   Op.add_sprite "b".toList (-3) 0,
   Op.add_sprite "c".toList 4 0]

/-- One loaded texture and no sprite. -/
def one_texture_state : State :=
  run (graphics_init boot) [Op.load_texture hero_bmp (some 7)]

/-- One texture and one sprite with a single declared frame. -/
def one_frame_state : State :=
  run (graphics_init boot)
    [Op.load_texture hero_bmp (some 7), Op.add_sprite "a".toList 1 0]

/-- Calls that append three frames to sprite 0 and then create two more sprites, the
first of them with a negative `frame_number`. -/
def overwrite_ops : List Op :=
  [Op.load_texture hero_bmp (some 7),
   Op.add_sprite "a".toList 5 0,
   Op.add_sprite_frame 0 8 16 0 0 16 16,
   Op.add_sprite_frame 0 8 16 16 0 16 16,
   Op.add_sprite_frame 0 8 16 32 0 16 16,
   Op.add_sprite "b".toList (-3) 0,
   Op.add_sprite "c".toList 4 0]

/-- Registry after `overwrite_ops`. -/
def overwrite_state : State := run (graphics_init boot) overwrite_ops

/-- Calls that create a sprite with `frame_number = -5` and then one with three
frames. -/
def negative_offset_ops : List Op :=
  [Op.load_texture hero_bmp (some 7),
   Op.add_sprite "a".toList (-5) 0,
   Op.add_sprite "b".toList 3 0]

/-- Registry after `negative_offset_ops`. -/
def negative_offset_state : State := run (graphics_init boot) negative_offset_ops


/-- Every registered sprite refers to an assigned texture index. -/
def SpriteTexturesOk (s : State) : Prop :=
  ∀ i : Int, 0 ≤ i → i < s.sprite_count →
    0 ≤ (s.sprite_table i).texture_index ∧ (s.sprite_table i).texture_index < s.texture_count

/-! ## Invariants of reachable states -/

/-- Bounds on the two entry counts that every call inside the arrays preserves. -/
def CountsOk (s : State) : Prop :=
  0 ≤ s.texture_count ∧ s.texture_count ≤ GRAPHICS_MAX_TEXTURES ∧
  0 ≤ s.sprite_count ∧ s.sprite_count ≤ GRAPHICS_MAX_SPRITES

/-- A call has a checked result exactly when it stays inside the arrays, and the result
is the state of `step`. -/
theorem step_checked_some (s s1 : State) (op : Op) (h : step_checked s op = some s1) :
    InBounds s op ∧ s1 = step s op := by
  unfold step_checked at h
  by_cases hb : InBounds s op
  · rw [if_pos hb] at h
    exact ⟨hb, (Option.some.inj h).symm⟩
  · rw [if_neg hb] at h
    exact absurd h (by simp)

/-- A checked sequence of calls splits into its first call and the rest. -/
theorem run_checked_cons (s st : State) (op : Op) (rest : List Op)
    (h : run_checked s (op :: rest) = some st) :
    InBounds s op ∧ run_checked (step s op) rest = some st := by
  unfold run_checked at h
  by_cases hb : InBounds s op
  · have hs : step_checked s op = some (step s op) := by
      unfold step_checked; rw [if_pos hb]
    rw [hs] at h
    exact ⟨hb, h⟩
  · have hs : step_checked s op = none := by
      unfold step_checked; rw [if_neg hb]
    rw [hs] at h
    exact absurd h (by simp)

/-- A checked sequence of calls ends in the state of `run`. -/
theorem run_checked_eq_run : ∀ (ops : List Op) (s st : State),
    run_checked s ops = some st → st = run s ops := by
  intro ops
  induction ops with
  | nil =>
    intro s st h
    unfold run_checked at h
    exact (Option.some.inj h).symm
  | cons op rest ih =>
    intro s st h
    obtain ⟨_, hrest⟩ := run_checked_cons s st op rest h
    exact ih (step s op) st hrest

theorem countsOk_init (s0 : State) : CountsOk (graphics_init s0) := by
  simp [CountsOk, graphics_init, GRAPHICS_MAX_TEXTURES, GRAPHICS_MAX_SPRITES]

/-- A call inside the arrays keeps the two counts within the lengths of their tables. -/
theorem countsOk_step (s : State) (op : Op) (h : CountsOk s) (hb : InBounds s op) :
    CountsOk (step s op) := by
  obtain ⟨h1, h2, h3, h4⟩ := h
  simp only [GRAPHICS_MAX_TEXTURES, GRAPHICS_MAX_SPRITES] at h2 h4
  cases op with
  | load_texture path tmp =>
    simp only [InBounds, load_texture_in_bounds] at hb
    by_cases hf : find_texture s path s.texture_count.toNat 0 = -1
    · rw [if_pos hf] at hb
      by_cases hfull : s.texture_count > GRAPHICS_MAX_TEXTURES
      · simpa only [step, graphics_load_texture, if_pos hf, if_pos hfull] using
          (⟨h1, h2, h3, h4⟩ : CountsOk s)
      · cases tmp with
        | none =>
          simpa only [step, graphics_load_texture, if_pos hf, if_neg hfull] using
            (⟨h1, h2, h3, h4⟩ : CountsOk s)
        | some hd =>
          simp only [if_neg hfull, Option.isSome_some, if_true, in_array] at hb
          simp only [step, graphics_load_texture, if_pos hf, if_neg hfull]
          simp only [GRAPHICS_MAX_TEXTURES] at hb
          simp only [CountsOk, wrap32, GRAPHICS_MAX_TEXTURES, GRAPHICS_MAX_SPRITES]
          omega
    · simpa only [step, graphics_load_texture, if_neg hf] using
        (⟨h1, h2, h3, h4⟩ : CountsOk s)
  | add_sprite name fn ti =>
    by_cases c1 : ti < 0 ∨ ti > wrap32 (s.texture_count - 1)
    · simpa only [step, graphics_add_sprite, if_pos c1] using (⟨h1, h2, h3, h4⟩ : CountsOk s)
    · by_cases c2 : s.sprite_count ≥ GRAPHICS_MAX_SPRITES
      · simpa only [step, graphics_add_sprite, if_neg c1, if_pos c2] using
          (⟨h1, h2, h3, h4⟩ : CountsOk s)
      · by_cases c3 : wrap32 (s.sprite_frame_count + fn) > GRAPHICS_MAX_SPRITE_FRAMES
        · simpa only [step, graphics_add_sprite, if_neg c1, if_neg c2, if_pos c3] using
            (⟨h1, h2, h3, h4⟩ : CountsOk s)
        · simp only [step, graphics_add_sprite, if_neg c1, if_neg c2, if_neg c3]
          simp only [GRAPHICS_MAX_SPRITES] at c2
          simp only [CountsOk, wrap32, GRAPHICS_MAX_TEXTURES, GRAPHICS_MAX_SPRITES]
          omega
  | add_sprite_frame idx ox oy fx fy fw fh =>
    simp only [step, graphics_add_sprite_frame]
    split
    · exact ⟨h1, h2, h3, h4⟩
    · split
      · exact ⟨h1, h2, h3, h4⟩
      · exact ⟨h1, h2, h3, h4⟩
  | draw_sprite idx x y f => exact ⟨h1, h2, h3, h4⟩

/-- The same over a checked sequence of calls. -/
theorem countsOk_run : ∀ (ops : List Op) (s st : State), CountsOk s →
    run_checked s ops = some st → CountsOk st := by
  intro ops
  induction ops with
  | nil =>
    intro s st h hr
    rw [run_checked_eq_run [] s st hr]
    exact h
  | cons op rest ih =>
    intro s st h hr
    obtain ⟨hb, hrest⟩ := run_checked_cons s st op rest hr
    exact ih (step s op) st (countsOk_step s op h hb) hrest

theorem countsOk_of_reachable (s : State) (h : Reachable s) : CountsOk s := by
  obtain ⟨s0, ops, _, hr⟩ := h
  exact countsOk_run ops _ s (countsOk_init s0) hr

/-! ## Single calls -/

/-- A successful `graphics_add_sprite`: all three checks passed, the old `sprite_count`
is returned and the new record sits at that index. -/
theorem add_sprite_success (s : State) (name : List Char) (n ti : Int)
    (hcnt : CountsOk s)
    (hok : (graphics_add_sprite s name n ti).ret ≠ -1) :
    (graphics_add_sprite s name n ti).ret = s.sprite_count ∧
    (graphics_add_sprite s name n ti).st.sprite_count = s.sprite_count + 1 ∧
    (graphics_add_sprite s name n ti).st.sprite_table s.sprite_count =
      ⟨n, 0, s.sprite_frame_count, ti⟩ ∧
    (graphics_add_sprite s name n ti).st.sprite_frame_table = s.sprite_frame_table := by
  obtain ⟨_, _, h3, h4⟩ := hcnt
  simp only [GRAPHICS_MAX_SPRITES] at h4
  have c1 : ¬ (ti < 0 ∨ ti > wrap32 (s.texture_count - 1)) := by
    intro hc; exact hok (by simp [graphics_add_sprite, hc])
  have c2 : ¬ (s.sprite_count ≥ GRAPHICS_MAX_SPRITES) := by
    intro hc; exact hok (by simp only [graphics_add_sprite, if_neg c1, if_pos hc])
  have c3 : ¬ (wrap32 (s.sprite_frame_count + n) > GRAPHICS_MAX_SPRITE_FRAMES) := by
    intro hc
    exact hok (by simp only [graphics_add_sprite, if_neg c1, if_neg c2, if_pos hc])
  have hw : wrap32 (s.sprite_count + 1) = s.sprite_count + 1 := by
    simp only [GRAPHICS_MAX_SPRITES] at c2
    simp only [wrap32]; omega
  simp only [graphics_add_sprite, if_neg c1, if_neg c2, if_neg c3, hw, store, if_true,
    and_self]


/-- A rejected `graphics_add_sprite_frame`: the declared frame number is used up. -/
theorem append_frame_reject (st : State) (idx : Int) (f : SpriteFrame)
    (h0 : 0 ≤ idx) (h1 : idx < st.sprite_count) (h2 : st.sprite_count ≤ INT_MAX)
    (hge : (st.sprite_table idx).current_frame_number ≥
      (st.sprite_table idx).maximum_frame_number) :
    append_frame st idx f = (st, [Event.printf Diag.maximum_frame_number_reached]) := by
  have hidx : ¬ (idx < 0 ∨ idx > wrap32 (st.sprite_count - 1)) := by
    simp only [wrap32, INT_MAX] at *; omega
  simp [append_frame, graphics_add_sprite_frame, hidx, hge]


/-- The truncating remainder of a negative dividend by a positive divisor lies in
`(-n, 0]`. -/
theorem tmod_of_neg (s n : Int) (hs : s < 0) (hn : 0 < n) :
    -n < Int.tmod s n ∧ Int.tmod s n ≤ 0 := by
  obtain ⟨m, rfl⟩ := Int.eq_negSucc_of_lt_zero hs
  obtain ⟨k, rfl⟩ := Int.eq_succ_of_zero_lt hn
  have hlt : (m + 1) % (k + 1) < k + 1 := Nat.mod_lt _ (Nat.succ_pos k)
  have hdef : Int.tmod (Int.negSucc m) ((k + 1 : Nat) : Int)
      = -(((m + 1) % (k + 1) : Nat) : Int) := rfl
  rw [hdef]
  omega

/-- Extent of the frame selection: the resolved index is inside `[0, n)` for every
selector that is not a negative multiple of `n`. -/
theorem resolve_frame_index_in_range (n s : Int) (hn : 0 < n) (hmax : n ≤ INT_MAX)
    (hs : 0 ≤ s ∨ Int.tmod s n ≠ 0) :
    0 ≤ resolve_frame_index n s ∧ resolve_frame_index n s < n := by
  unfold resolve_frame_index
  by_cases hneg : s < 0
  · have hb := tmod_of_neg s n hneg hn
    have hne : Int.tmod s n ≠ 0 := by
      rcases hs with h | h
      · omega
      · exact h
    simp only [if_pos hneg, wrap32, INT_MAX] at *
    omega
  · simp only [if_neg hneg]
    exact ⟨Int.tmod_nonneg n (by omega), Int.tmod_lt_of_pos s hn⟩

/-- When the sum `sprite_frame_count + frame_number` is representable, a request larger
than the free frame capacity is rejected and nothing is changed. -/
theorem add_sprite_rejects_without_room (s : State) (sprite_name : List Char)
    (frame_number texture_index : Int)
    (hsum : IsInt (s.sprite_frame_count + frame_number))
    (hfree : GRAPHICS_MAX_SPRITE_FRAMES - s.sprite_frame_count < frame_number) :
    (graphics_add_sprite s sprite_name frame_number texture_index).ret = -1 ∧
    (graphics_add_sprite s sprite_name frame_number texture_index).st = s := by
  have hc : wrap32 (s.sprite_frame_count + frame_number) > GRAPHICS_MAX_SPRITE_FRAMES := by
    simp only [IsInt, INT_MIN, INT_MAX, wrap32, GRAPHICS_MAX_SPRITE_FRAMES] at *
    omega
  by_cases c1 : texture_index < 0 ∨ texture_index > wrap32 (s.texture_count - 1)
  · simp only [graphics_add_sprite, if_pos c1, and_self]
  · by_cases c2 : s.sprite_count ≥ GRAPHICS_MAX_SPRITES
    · simp only [graphics_add_sprite, if_neg c1, if_pos c2, and_self]
    · simp only [graphics_add_sprite, if_neg c1, if_neg c2, if_pos hc, and_self]

/-! ## Frame selection of `graphics_draw_sprite` -/

/-- C1 (refuted on the code). The claim says the resolved frame index lies in `[0, n)`
for every selector.  For a negative selector the code computes `n + (s % n)` with the
truncating `%`, which is `n` when `s` is a negative multiple of `n`: with the four
frames of `hero_state` and selector `-4` the resolved index is `4`, outside `[0, 4)`,
and the draw call composites frame-table slot `frame_offset + 4`, a slot that was never
appended (it still holds the zero record of program start). -/
theorem draw_resolves_negative_multiple_out_of_range :
    (hero_state.sprite_table 0).current_frame_number = 4 ∧
    (hero_state.sprite_table 0).frame_offset = 0 ∧
    resolve_frame_index 4 (-4) = 4 ∧
    ¬ (0 ≤ resolve_frame_index 4 (-4) ∧ resolve_frame_index 4 (-4) < 4) ∧
    hero_state.sprite_frame_table 4 = ⟨⟨0, 0⟩, ⟨0, 0, 0, 0⟩⟩ ∧
    graphics_draw_sprite hero_state 0 100 100 (-4) =
      [Event.SDL_RenderCopy 7 ⟨0, 0, 0, 0⟩ ⟨100, 100, 0, 0⟩] := by
  decide

/-- C9 (refuted on the code). The claim says selectors `s` and `s + k*n` resolve to the
same frame.  With `n = 4`, `s = -4`, `k = 1` the code resolves `s` to `4` and
`s + k*n = 0` to `0`, and the two draw calls composite different source rectangles. -/
theorem draw_selector_shift_changes_frame :
    resolve_frame_index 4 (-4) = 4 ∧
    resolve_frame_index 4 (-4 + 1 * 4) = 0 ∧
    resolve_frame_index 4 (-4) ≠ resolve_frame_index 4 (-4 + 1 * 4) ∧
    graphics_draw_sprite hero_state 0 100 100 (-4 + 1 * 4) =
      [Event.SDL_RenderCopy 7 ⟨0, 0, 16, 16⟩ ⟨92, 84, 16, 16⟩] ∧
    graphics_draw_sprite hero_state 0 100 100 (-4) ≠
      graphics_draw_sprite hero_state 0 100 100 (-4 + 1 * 4) := by
  decide

/-! ## Texture registry -/

/-- C2 (refuted on the code). The claim says a second load of the same path returns the
first index and leaves `texture_count` alone.  The name copy stores the empty string as
key (see `copy_name`), so the lookup of the second call finds no match for `hero.bmp`:
the first call returns `0`, the second returns `1`, and `texture_count` ends at `2`. -/
theorem load_texture_twice_registers_twice :
    (graphics_load_texture (graphics_init boot) hero_bmp (some 7)).ret = 0 ∧
    (graphics_load_texture (graphics_init boot) hero_bmp (some 7)).st.texture_count = 1 ∧
    cstr ((graphics_load_texture (graphics_init boot) hero_bmp (some 7)).st.texture_names 0)
      = [] ∧
    (graphics_load_texture
      (graphics_load_texture (graphics_init boot) hero_bmp (some 7)).st
      hero_bmp (some 7)).ret = 1 ∧
    (graphics_load_texture
      (graphics_load_texture (graphics_init boot) hero_bmp (some 7)).st
      hero_bmp (some 7)).st.texture_count = 2 := by
  decide

/-- C3 (refuted on the code). The claim says a load into a full table (`texture_count`
equal to `GRAPHICS_MAX_TEXTURES`) fails and changes nothing.  The code tests
`texture_count > GRAPHICS_MAX_TEXTURES`, so with four textures registered, a path that
matches no stored key and a file that decodes, the call returns `4`, stores the handle at
index `4` of a table declared with four entries, and raises `texture_count` to `5`. -/
theorem load_texture_accepts_at_capacity :
    four_textures.texture_count = GRAPHICS_MAX_TEXTURES ∧
    (∀ i ∈ ([0, 1, 2, 3] : List Int),
      strcmp_eq "e.bmp".toList (four_textures.texture_names i) = false) ∧
    (graphics_load_texture four_textures "e.bmp".toList (some 5)).ret = 4 ∧
    (graphics_load_texture four_textures "e.bmp".toList (some 5)).st.texture_count = 5 ∧
    (graphics_load_texture four_textures "e.bmp".toList (some 5)).st.texture_table 4 = 5 ∧
    (graphics_load_texture four_textures "e.bmp".toList (some 5)).out = [] := by
  decide

/-! ## Sprite registry -/

/-- C4 (refuted on the code). The claim says the frame-table slices of two distinct
sprites are disjoint after any successful creations.  `graphics_add_sprite` accepts a
negative `frame_number` and adds it to `sprite_frame_count`, which moves the high-water
mark back: after creating sprites with 5, -3 and 4 frames (all three calls return an
index), sprite 0 owns `[0, 5)` and sprite 2 owns `[2, 6)`, and slot 2 lies in both. -/
theorem negative_frame_number_overlaps_slices :
    (∀ op ∈ negative_budget_ops, op.WellTyped) ∧
    (run (graphics_init boot) negative_budget_ops).sprite_count = 3 ∧
    (run (graphics_init boot) negative_budget_ops).sprite_table 0 = ⟨5, 0, 0, 0⟩ ∧
    (run (graphics_init boot) negative_budget_ops).sprite_table 1 = ⟨-3, 0, 5, 0⟩ ∧
    (run (graphics_init boot) negative_budget_ops).sprite_table 2 = ⟨4, 0, 2, 0⟩ ∧
    in_slice ((run (graphics_init boot) negative_budget_ops).sprite_table 0) 2 ∧
    in_slice ((run (graphics_init boot) negative_budget_ops).sprite_table 2) 2 := by
  decide

/-- C5 (refuted on the code). The claim says every registered sprite has
`current_frame_number <= maximum_frame_number` in every reachable state.  A call
`graphics_add_sprite(name, -3, 0)` on a loaded texture succeeds (it returns index 0)
and registers a sprite with `current_frame_number = 0` and
`maximum_frame_number = -3`. -/
theorem negative_frame_number_exceeds_maximum :
    (graphics_add_sprite one_texture_state "b".toList (-3) 0).ret = 0 ∧
    (graphics_add_sprite one_texture_state "b".toList (-3) 0).st.sprite_count = 1 ∧
    (graphics_add_sprite one_texture_state "b".toList (-3) 0).st.sprite_table 0
      = ⟨-3, 0, 0, 0⟩ ∧
    ¬ (Sprite.current_frame_number
        ((graphics_add_sprite one_texture_state "b".toList (-3) 0).st.sprite_table 0) ≤
      Sprite.maximum_frame_number
        ((graphics_add_sprite one_texture_state "b".toList (-3) 0).st.sprite_table 0)) := by
  decide

/-- C7 (refuted on the code). The claim says `graphics_add_sprite` fails and changes
nothing whenever the free frame capacity is smaller than `frame_number`, for any `int`
value.  The code tests `sprite_frame_count + frame_number > GRAPHICS_MAX_SPRITE_FRAMES`
in `int` arithmetic: with one frame reserved and `frame_number = 2147483647` the sum
wraps to `-2147483648`, the test passes, and the sprite is registered (index 1 returned,
`sprite_count` 2, `sprite_frame_count` negative). -/
theorem add_sprite_accepts_overflowing_frame_number :
    one_frame_state.sprite_count = 1 ∧
    one_frame_state.sprite_frame_count = 1 ∧
    IsInt 2147483647 ∧
    GRAPHICS_MAX_SPRITE_FRAMES - one_frame_state.sprite_frame_count < 2147483647 ∧
    (graphics_add_sprite one_frame_state "b".toList 2147483647 0).ret = 1 ∧
    (graphics_add_sprite one_frame_state "b".toList 2147483647 0).st.sprite_count = 2 ∧
    (graphics_add_sprite one_frame_state "b".toList 2147483647 0).st.sprite_frame_count
      = -2147483648 ∧
    (graphics_add_sprite one_frame_state "b".toList 2147483647 0).st.sprite_table 1
      = ⟨2147483647, 0, 1, 0⟩ := by
  decide

/-- C8. For every registry state whose `texture_count` is an `int` other than `INT_MIN`
(so that `texture_count - 1` does not overflow; every reachable state has
`0 <= texture_count`) and every `texture_index` outside `[0, texture_count)`,
`graphics_add_sprite` returns `-1`, prints the invalid-texture-index diagnostic and
returns the state unchanged. -/
theorem add_sprite_rejects_bad_texture_index (s : State) (sprite_name : List Char)
    (frame_number texture_index : Int)
    (hcount : INT_MIN < s.texture_count ∧ s.texture_count ≤ INT_MAX)
    (hout : ¬ (0 ≤ texture_index ∧ texture_index < s.texture_count)) :
    (graphics_add_sprite s sprite_name frame_number texture_index).ret = -1 ∧
    (graphics_add_sprite s sprite_name frame_number texture_index).st = s ∧
    (graphics_add_sprite s sprite_name frame_number texture_index).out =
      [Event.printf Diag.invalid_texture_index] := by
  have hc : texture_index < 0 ∨ texture_index > wrap32 (s.texture_count - 1) := by
    simp only [wrap32, INT_MIN, INT_MAX] at *; omega
  simp [graphics_add_sprite, hc]

/-- Instance of `add_sprite_rejects_bad_texture_index`: with one texture loaded,
`texture_index = texture_count = 1` is rejected. -/
theorem add_sprite_rejects_bad_texture_index_witness :
    (INT_MIN < one_texture_state.texture_count ∧ one_texture_state.texture_count ≤ INT_MAX) ∧
    ¬ (0 ≤ (1 : Int) ∧ (1 : Int) < one_texture_state.texture_count) ∧
    (graphics_add_sprite one_texture_state hero_walk 4 1).ret = -1 ∧
    (graphics_add_sprite one_texture_state hero_walk 4 1).st = one_texture_state :=
  ⟨by decide, by decide,
   (add_sprite_rejects_bad_texture_index one_texture_state hero_walk 4 1
      (by decide) (by decide)).1,
   (add_sprite_rejects_bad_texture_index one_texture_state hero_walk 4 1
      (by decide) (by decide)).2.1⟩

/-! ## Scenario -/

/-- C10. From the registry after `graphics_init` (whatever the tables held before) and
with the backend decoding `hero.bmp` to a handle `h`: the load returns 0, creating
`hero_walk` with 4 frames on texture 0 returns 0 with `frame_offset` 0, and after the
four appends `graphics_draw_sprite(0, 100, 100, -1)` resolves to frame index 3 and
issues one composite call with source `(48,0,16,16)` and destination
`(92,84,16,16)`. -/
theorem hero_scenario (s0 : State) (h : Handle) :
    let l := graphics_load_texture (graphics_init s0) hero_bmp (some h)
    let a := graphics_add_sprite l.st hero_walk 4 0
    let f1 := (graphics_add_sprite_frame a.st 0 8 16 0 0 16 16).1
    let f2 := (graphics_add_sprite_frame f1 0 8 16 16 0 16 16).1
    let f3 := (graphics_add_sprite_frame f2 0 8 16 32 0 16 16).1
    let f4 := (graphics_add_sprite_frame f3 0 8 16 48 0 16 16).1
    l.ret = 0 ∧ a.ret = 0 ∧ (a.st.sprite_table 0).frame_offset = 0 ∧
    resolve_frame_index (f4.sprite_table 0).current_frame_number (-1) = 3 ∧
    graphics_draw_sprite f4 0 100 100 (-1) =
      [Event.SDL_RenderCopy h ⟨48, 0, 16, 16⟩ ⟨92, 84, 16, 16⟩] := by
  have hr : resolve_frame_index 4 (-1) = 3 := by decide
  simp [graphics_load_texture, graphics_init, find_texture, graphics_add_sprite,
    graphics_add_sprite_frame, graphics_draw_sprite, hr, store, wrap32,
    GRAPHICS_MAX_TEXTURES, GRAPHICS_MAX_SPRITES, GRAPHICS_MAX_SPRITE_FRAMES]

/-! ## Lemmas on the texture registry, the sprite records and the release loop -/

/-- An `int` value is left alone by the wrap-around. -/
theorem wrap32_of_isInt (x : Int) (h : IsInt x) : wrap32 x = x := by
  simp only [IsInt, INT_MIN, INT_MAX, wrap32] at *
  omega

/-- A successful lookup returns an index between the start index and `texture_count`. -/
theorem find_texture_range (s : State) (path : List Char) (hmax : s.texture_count ≤ INT_MAX) :
    ∀ (fuel : Nat) (i : Int), 0 ≤ i → find_texture s path fuel i ≠ -1 →
      i ≤ find_texture s path fuel i ∧ find_texture s path fuel i < s.texture_count := by
  intro fuel
  induction fuel with
  | zero => intro i _ h; exact absurd rfl h
  | succ fuel ih =>
    intro i hi h
    unfold find_texture at h ⊢
    by_cases hlt : i < s.texture_count
    · rw [if_pos hlt] at h ⊢
      by_cases hm : strcmp_eq path (s.texture_names i) = true
      · rw [if_pos hm]
        exact ⟨le_refl i, hlt⟩
      · rw [if_neg hm] at h ⊢
        have hw : wrap32 (i + 1) = i + 1 := by
          simp only [wrap32, INT_MAX] at *; omega
        rw [hw] at h ⊢
        have := ih (i + 1) (by omega) h
        omega
    · rw [if_neg hlt] at h
      exact absurd rfl h

/-- A texture load leaves the sprite registry alone. -/
theorem load_texture_sprites (s : State) (path : List Char) (tmp : Option Handle) :
    (graphics_load_texture s path tmp).st.sprite_count = s.sprite_count ∧
    (graphics_load_texture s path tmp).st.sprite_table = s.sprite_table := by
  simp only [graphics_load_texture]
  split
  · split
    · exact ⟨rfl, rfl⟩
    · cases tmp with
      | none => exact ⟨rfl, rfl⟩
      | some hd => exact ⟨rfl, rfl⟩
  · exact ⟨rfl, rfl⟩

/-- The release loop entered with `texture_count = n` and the loop variable at `n - 1`
destroys the textures at indices `n - 1` down to `0` and leaves `texture_count` at 0. -/
theorem quit_loop_spec : ∀ (n : Nat) (s : State), s.texture_count = (n : Int) →
    (n : Int) ≤ INT_MAX →
    quit_loop s n ((n : Int) - 1) =
      ({ s with texture_count := 0 },
       (List.range n).reverse.map
         (fun i : Nat => Event.SDL_DestroyTexture (s.texture_table (i : Int)))) := by
  intro n
  induction n with
  | zero =>
    intro s hs _
    cases s
    simp only [Nat.cast_zero] at hs
    subst hs
    simp [quit_loop]
  | succ n ih =>
    intro s hs hmax
    have hmax' : (n : Int) ≤ INT_MAX := by
      simp only [Nat.cast_succ, INT_MAX] at *; omega
    have hi : (n : Int) ≥ 0 := Int.ofNat_nonneg n
    have hw1 : wrap32 (s.texture_count - 1) = (n : Int) := by
      rw [hs]; simp only [Nat.cast_succ, wrap32, INT_MAX] at *; omega
    have hw2 : wrap32 ((n : Int) - 1) = (n : Int) - 1 := by
      simp only [Nat.cast_succ, wrap32, INT_MAX] at *; omega
    have hidx : ((n + 1 : Nat) : Int) - 1 = (n : Int) := by
      simp only [Nat.cast_succ]; omega
    have hrec := ih { s with texture_count := (n : Int) } rfl hmax'
    simp only at hrec
    rw [hidx]
    simp only [quit_loop, if_pos hi, hw1, hw2, hrec, List.range_succ,
      List.reverse_append, List.reverse_cons, List.reverse_nil, List.nil_append,
      List.singleton_append, List.map_cons]

/-! ## Draw operation -/

/-- C11. A `graphics_draw_sprite` call whose `sprite_index` is outside
`[0, sprite_count)`, or whose sprite has `current_frame_number = 0` (no frame appended,
as right after its creation), issues exactly one diagnostic and no backend call; its
result does not depend on the frame table (no frame record is read); and the registry
state after the call is the state before. -/
theorem draw_rejected_is_noop (s : State) (sprite_index x y frame_index : Int)
    (h : ¬ (0 ≤ sprite_index ∧ sprite_index < s.sprite_count) ∨
      (s.sprite_table sprite_index).current_frame_number = 0) :
    graphics_draw_sprite s sprite_index x y frame_index =
      [Event.printf (if 0 ≤ sprite_index ∧ sprite_index < s.sprite_count
        then Diag.no_animation_frames else Diag.draw_invalid_sprite_index)] ∧
    (∀ frames : Int → SpriteFrame,
      graphics_draw_sprite { s with sprite_frame_table := frames } sprite_index x y frame_index
        = graphics_draw_sprite s sprite_index x y frame_index) ∧
    step s (Op.draw_sprite sprite_index x y frame_index) = s := by
  by_cases hv : 0 ≤ sprite_index ∧ sprite_index < s.sprite_count
  · have h0 : (s.sprite_table sprite_index).current_frame_number = 0 := by
      rcases h with h | h
      · exact absurd hv h
      · exact h
    have hc : ¬ (sprite_index < 0 ∨ sprite_index ≥ s.sprite_count) := by omega
    simp [graphics_draw_sprite, hc, h0, hv, step]
  · have hc : sprite_index < 0 ∨ sprite_index ≥ s.sprite_count := by omega
    simp [graphics_draw_sprite, hc, hv, step]

/-- Instance of `draw_rejected_is_noop`: drawing the sprite `hero_walk` right after its
creation, before any frame is appended. -/
theorem draw_rejected_is_noop_witness :
    ((graphics_add_sprite one_texture_state hero_walk 4 0).st.sprite_table 0)
      = ⟨4, 0, 0, 0⟩ ∧
    graphics_draw_sprite (graphics_add_sprite one_texture_state hero_walk 4 0).st
      0 100 100 0 = [Event.printf Diag.no_animation_frames] :=
  ⟨by decide,
   (draw_rejected_is_noop (graphics_add_sprite one_texture_state hero_walk 4 0).st
      0 100 100 0 (Or.inr (by decide))).1⟩

/-- C15. For a valid `sprite_index` whose sprite has a non-zero `current_frame_number`,
`graphics_draw_sprite` issues exactly one backend call, `SDL_RenderCopy`, with the
texture `texture_table[sprite.texture_index]`, the source rectangle equal to the bounds
of the frame at `frame_offset + resolved index`, and the destination rectangle
`(x - origin.x, y - origin.y, bounds.w, bounds.h)` of that frame (the subtractions and
the slot index in `int` arithmetic, exact whenever representable); the registry state is
not changed. -/
theorem draw_composites_resolved_frame (s : State) (sprite_index x y frame_index : Int)
    (hv : 0 ≤ sprite_index ∧ sprite_index < s.sprite_count)
    (hn : (s.sprite_table sprite_index).current_frame_number ≠ 0) :
    let sprite := s.sprite_table sprite_index
    let k := resolve_frame_index sprite.current_frame_number frame_index
    let fr := s.sprite_frame_table (wrap32 (sprite.frame_offset + k))
    graphics_draw_sprite s sprite_index x y frame_index =
      [Event.SDL_RenderCopy (s.texture_table sprite.texture_index) fr.bounds
        ⟨wrap32 (x - fr.origin.x), wrap32 (y - fr.origin.y), fr.bounds.w, fr.bounds.h⟩] ∧
    (IsInt (sprite.frame_offset + k) →
      wrap32 (sprite.frame_offset + k) = sprite.frame_offset + k) ∧
    (IsInt (x - fr.origin.x) → wrap32 (x - fr.origin.x) = x - fr.origin.x) ∧
    (IsInt (y - fr.origin.y) → wrap32 (y - fr.origin.y) = y - fr.origin.y) ∧
    step s (Op.draw_sprite sprite_index x y frame_index) = s := by
  intro sprite k fr
  have hc : ¬ (sprite_index < 0 ∨ sprite_index ≥ s.sprite_count) := by omega
  refine ⟨?_, wrap32_of_isInt _, wrap32_of_isInt _, wrap32_of_isInt _, rfl⟩
  simp [graphics_draw_sprite, hc, hn, fr, k, sprite]

/-- Instance of `draw_composites_resolved_frame`: the four-frame sprite of `hero_state`
drawn at `(100, 100)` with selector `-1`. -/
theorem draw_composites_resolved_frame_witness :
    (0 ≤ (0 : Int) ∧ (0 : Int) < hero_state.sprite_count) ∧
    (hero_state.sprite_table 0).current_frame_number ≠ 0 ∧
    graphics_draw_sprite hero_state 0 100 100 (-1) =
      [Event.SDL_RenderCopy 7 ⟨48, 0, 16, 16⟩ ⟨92, 84, 16, 16⟩] :=
  ⟨by decide, by decide,
   (draw_composites_resolved_frame hero_state 0 100 100 (-1) (by decide) (by decide)).1.trans
     (by decide)⟩

/-! ## Sprite creation and frame append -/

/-- C12. When the three checks of `graphics_add_sprite` pass (`texture_index` in
`[0, texture_count)`, `sprite_count < GRAPHICS_MAX_SPRITES`, and
`sprite_frame_count + frame_number <= GRAPHICS_MAX_SPRITE_FRAMES` as the code
evaluates it, in `int` arithmetic), the call returns the old `sprite_count`, prints
nothing, stores at that index the record with `maximum_frame_number = frame_number`,
`current_frame_number = 0`, `frame_offset` = old `sprite_frame_count` and the given
`texture_index`, raises `sprite_count` by 1 and `sprite_frame_count` by `frame_number`
(the `int` sum, which is the exact sum whenever that is representable), and leaves every
other sprite record, the frame table and the texture registry unchanged. -/
theorem add_sprite_registers (s : State) (sprite_name : List Char)
    (frame_number texture_index : Int)
    (htc : IsInt s.texture_count) (hsc : IsInt s.sprite_count)
    (v1 : 0 ≤ texture_index ∧ texture_index < s.texture_count)
    (v2 : s.sprite_count < GRAPHICS_MAX_SPRITES)
    (v3 : wrap32 (s.sprite_frame_count + frame_number) ≤ GRAPHICS_MAX_SPRITE_FRAMES) :
    let r := graphics_add_sprite s sprite_name frame_number texture_index
    r.ret = s.sprite_count ∧
    r.out = [] ∧
    r.st.sprite_table s.sprite_count =
      { maximum_frame_number := frame_number, current_frame_number := 0,
        frame_offset := s.sprite_frame_count, texture_index := texture_index } ∧
    r.st.sprite_count = s.sprite_count + 1 ∧
    r.st.sprite_frame_count = wrap32 (s.sprite_frame_count + frame_number) ∧
    (IsInt (s.sprite_frame_count + frame_number) →
      r.st.sprite_frame_count = s.sprite_frame_count + frame_number) ∧
    (∀ j : Int, j ≠ s.sprite_count → r.st.sprite_table j = s.sprite_table j) ∧
    r.st.sprite_frame_table = s.sprite_frame_table ∧
    r.st.texture_count = s.texture_count ∧
    r.st.texture_table = s.texture_table ∧
    r.st.texture_names = s.texture_names := by
  intro r
  have c1 : ¬ (texture_index < 0 ∨ texture_index > wrap32 (s.texture_count - 1)) := by
    simp only [IsInt, INT_MIN, INT_MAX, wrap32] at *; omega
  have c2 : ¬ (s.sprite_count ≥ GRAPHICS_MAX_SPRITES) := by omega
  have c3 : ¬ (wrap32 (s.sprite_frame_count + frame_number) > GRAPHICS_MAX_SPRITE_FRAMES) := by
    omega
  have hw : wrap32 (s.sprite_count + 1) = s.sprite_count + 1 := by
    simp only [IsInt, INT_MIN, INT_MAX, wrap32, GRAPHICS_MAX_SPRITES] at *; omega
  have hr : r = graphics_add_sprite s sprite_name frame_number texture_index := rfl
  simp only [graphics_add_sprite, if_neg c1, if_neg c2, if_neg c3, hw] at hr
  rw [hr]
  refine ⟨rfl, rfl, ?_, rfl, rfl, ?_, ?_, rfl, rfl, rfl, rfl⟩
  · simp only [store, if_true]
  · intro hi
    exact wrap32_of_isInt _ hi
  · intro j hj
    simp only [store, if_neg hj]

/-- Instance of `add_sprite_registers`: creating `hero_walk` with four frames on the
one-texture registry. -/
theorem add_sprite_registers_witness :
    IsInt one_texture_state.texture_count ∧ IsInt one_texture_state.sprite_count ∧
    (0 ≤ (0 : Int) ∧ (0 : Int) < one_texture_state.texture_count) ∧
    one_texture_state.sprite_count < GRAPHICS_MAX_SPRITES ∧
    wrap32 (one_texture_state.sprite_frame_count + 4) ≤ GRAPHICS_MAX_SPRITE_FRAMES ∧
    (graphics_add_sprite one_texture_state hero_walk 4 0).ret
      = one_texture_state.sprite_count ∧
    (graphics_add_sprite one_texture_state hero_walk 4 0).st.sprite_count
      = one_texture_state.sprite_count + 1 :=
  ⟨by decide, by decide, by decide, by decide, by decide,
   (add_sprite_registers one_texture_state hero_walk 4 0
      (by decide) (by decide) (by decide) (by decide) (by decide)).1,
   (add_sprite_registers one_texture_state hero_walk 4 0
      (by decide) (by decide) (by decide) (by decide) (by decide)).2.2.2.1⟩

/-- C14 (refuted on the code). The claim says a frame appended to a sprite stays in its
slot `frame_offset + j` whatever is created or appended for other sprites.  After three
frames are appended to sprite 0 (slice from offset 0, slots 0, 1, 2), the creation of a
sprite with `frame_number = -3` moves `sprite_frame_count` back from 5 to 2, the next
sprite (index 2) gets `frame_offset = 2`, and its first append overwrites slot 2: the
third frame of sprite 0 is gone, and `graphics_draw_sprite` with selector 2 on sprite 0
composites the frame that was appended to sprite 2. -/
theorem appended_frame_overwritten_by_other_sprite :
    (∀ op ∈ overwrite_ops, op.WellTyped) ∧
    overwrite_state.sprite_table 0 = ⟨5, 3, 0, 0⟩ ∧
    overwrite_state.sprite_table 2 = ⟨4, 0, 2, 0⟩ ∧
    overwrite_state.sprite_frame_table (0 + 2) = ⟨⟨8, 16⟩, ⟨32, 0, 16, 16⟩⟩ ∧
    (graphics_add_sprite_frame overwrite_state 2 0 0 0 32 32 32).2 = [] ∧
    (graphics_add_sprite_frame overwrite_state 2 0 0 0 32 32 32).1.sprite_table 0
      = ⟨5, 3, 0, 0⟩ ∧
    (graphics_add_sprite_frame overwrite_state 2 0 0 0 32 32 32).1.sprite_frame_table (0 + 2)
      = ⟨⟨0, 0⟩, ⟨0, 32, 32, 32⟩⟩ ∧
    graphics_draw_sprite (graphics_add_sprite_frame overwrite_state 2 0 0 0 32 32 32).1
      0 100 100 2 = [Event.SDL_RenderCopy 7 ⟨0, 32, 32, 32⟩ ⟨100, 100, 32, 32⟩] := by
  decide

/-- C20 (refuted on the code). The claim says every successful
`graphics_add_sprite_frame` writes inside the frame table `[0, GRAPHICS_MAX_SPRITE_FRAMES)`.
After one texture load, `graphics_add_sprite` with `frame_number = -5` succeeds and
leaves `sprite_frame_count = -5`; the next sprite (3 frames) gets `frame_offset = -5`,
and its first append is accepted and writes frame-table index `-5 + 0 = -5`, below the
start of the table. -/
theorem frame_written_outside_table :
    (∀ op ∈ negative_offset_ops, op.WellTyped) ∧
    negative_offset_state.sprite_count = 2 ∧
    negative_offset_state.sprite_table 1 = ⟨3, 0, -5, 0⟩ ∧
    (graphics_add_sprite_frame negative_offset_state 1 8 16 0 0 16 16).2 = [] ∧
    (graphics_add_sprite_frame negative_offset_state 1 8 16 0 0 16 16).1.sprite_table 1
      = ⟨3, 1, -5, 0⟩ ∧
    negative_offset_state.sprite_frame_table (-5 + 0) = ⟨⟨0, 0⟩, ⟨0, 0, 0, 0⟩⟩ ∧
    (graphics_add_sprite_frame negative_offset_state 1 8 16 0 0 16 16).1.sprite_frame_table
      (-5 + 0) = ⟨⟨8, 16⟩, ⟨0, 0, 16, 16⟩⟩ ∧
    ¬ (0 ≤ (-5 + 0 : Int) ∧ (-5 + 0 : Int) < GRAPHICS_MAX_SPRITE_FRAMES) := by
  decide

/-! ## Texture indices, stored keys and teardown -/

/-- C18 (refuted on the code). The claim says the key stored for a newly loaded path is
the path itself, cut at `GRAPHICS_MAX_NAME_LENGTH - 1` characters.  The copy loop leaves
at its first iteration (see `copy_name`), so for `hero.bmp` (8 characters, no NUL) the
load succeeds with index 0 and the key stored at index 0 is the empty string. -/
theorem load_texture_stores_empty_key :
    (graphics_load_texture (graphics_init boot) hero_bmp (some 7)).ret = 0 ∧
    (graphics_load_texture (graphics_init boot) hero_bmp (some 7)).out = [] ∧
    hero_bmp.length = 8 ∧
    cstr hero_bmp = hero_bmp ∧
    cstr ((graphics_load_texture (graphics_init boot) hero_bmp (some 7)).st.texture_names 0)
      = [] ∧
    cstr ((graphics_load_texture (graphics_init boot) hero_bmp (some 7)).st.texture_names 0)
      ≠ hero_bmp.take (min hero_bmp.length (GRAPHICS_MAX_NAME_LENGTH - 1)) := by
  decide

/-- C19. For a state with `texture_count = c >= 0` (an `int`), `graphics_quit` issues
`SDL_DestroyTexture` for the handles at indices `c-1, c-2, ..., 0` in that order, once
each and for no other index, then `SDL_DestroyRenderer`; when the loop is left, before
the renderer is destroyed, `texture_count` is 0, and nothing else of the state is
changed. -/
theorem quit_releases_every_texture (s : State)
    (hc : 0 ≤ s.texture_count ∧ s.texture_count ≤ INT_MAX) :
    (graphics_quit s).2 =
      (List.range s.texture_count.toNat).reverse.map
        (fun i : Nat => Event.SDL_DestroyTexture (s.texture_table (i : Int)))
      ++ [Event.SDL_DestroyRenderer] ∧
    (quit_loop s (wrap32 (s.texture_count - 1) + 1).toNat
      (wrap32 (s.texture_count - 1))).1.texture_count = 0 ∧
    (graphics_quit s).1 = { s with texture_count := 0 } := by
  obtain ⟨h0, hmax⟩ := hc
  have hw : wrap32 (s.texture_count - 1) = s.texture_count - 1 := by
    simp only [wrap32, INT_MAX] at *; omega
  have hn : ((s.texture_count.toNat : Nat) : Int) = s.texture_count := Int.toNat_of_nonneg h0
  have hfuel : (s.texture_count - 1 + 1).toNat = s.texture_count.toNat := by
    congr 1; omega
  have hloop := quit_loop_spec s.texture_count.toNat s hn.symm (by rw [hn]; exact hmax)
  rw [hn] at hloop
  simp only [graphics_quit, hw, hfuel, hloop, and_self]

/-- Instance of `quit_releases_every_texture`: teardown of the registry holding the
four textures with handles 1, 2, 3, 4. -/
theorem quit_releases_every_texture_witness :
    (0 ≤ four_textures.texture_count ∧ four_textures.texture_count ≤ INT_MAX) ∧
    (graphics_quit four_textures).2 =
      [Event.SDL_DestroyTexture 4, Event.SDL_DestroyTexture 3, Event.SDL_DestroyTexture 2,
       Event.SDL_DestroyTexture 1, Event.SDL_DestroyRenderer] :=
  ⟨by decide,
   (quit_releases_every_texture four_textures (by decide)).1.trans (by decide)⟩

/-! ## Calls inside the arrays: textures and sprite records -/

/-- A call inside the arrays never lowers `texture_count` and never touches the handle or
the key of an index below it. -/
theorem textures_stable_step (s : State) (h0 : 0 ≤ s.texture_count) (op : Op)
    (_hb : InBounds s op) :
    s.texture_count ≤ (step s op).texture_count ∧
    ∀ i : Int, 0 ≤ i → i < s.texture_count →
      (step s op).texture_table i = s.texture_table i ∧
      (step s op).texture_names i = s.texture_names i := by
  cases op with
  | load_texture path tmp =>
    simp only [step, graphics_load_texture]
    split
    · split
      · exact ⟨le_refl _, fun _ _ _ => ⟨rfl, rfl⟩⟩
      · rename_i hfull
        simp only [GRAPHICS_MAX_TEXTURES] at hfull
        cases tmp with
        | none => exact ⟨le_refl _, fun _ _ _ => ⟨rfl, rfl⟩⟩
        | some hd =>
          refine ⟨?_, ?_⟩
          · simp only [wrap32]; omega
          · intro i _ hi
            have hne : i ≠ s.texture_count := by omega
            simp only [store, if_neg hne, and_self]
    · exact ⟨le_refl _, fun _ _ _ => ⟨rfl, rfl⟩⟩
  | add_sprite name fn ti =>
    simp only [step, graphics_add_sprite]
    split
    · exact ⟨le_refl _, fun _ _ _ => ⟨rfl, rfl⟩⟩
    · split
      · exact ⟨le_refl _, fun _ _ _ => ⟨rfl, rfl⟩⟩
      · split
        · exact ⟨le_refl _, fun _ _ _ => ⟨rfl, rfl⟩⟩
        · exact ⟨le_refl _, fun _ _ _ => ⟨rfl, rfl⟩⟩
  | add_sprite_frame idx ox oy fx fy fw fh =>
    simp only [step, graphics_add_sprite_frame]
    split
    · exact ⟨le_refl _, fun _ _ _ => ⟨rfl, rfl⟩⟩
    · split
      · exact ⟨le_refl _, fun _ _ _ => ⟨rfl, rfl⟩⟩
      · exact ⟨le_refl _, fun _ _ _ => ⟨rfl, rfl⟩⟩
  | draw_sprite idx x y f => exact ⟨le_refl _, fun _ _ _ => ⟨rfl, rfl⟩⟩

/-- The same over a checked sequence of calls. -/
theorem textures_stable_run : ∀ (ops : List Op) (s st : State), 0 ≤ s.texture_count →
    run_checked s ops = some st →
    s.texture_count ≤ st.texture_count ∧
    ∀ i : Int, 0 ≤ i → i < s.texture_count →
      st.texture_table i = s.texture_table i ∧ st.texture_names i = s.texture_names i := by
  intro ops
  induction ops with
  | nil =>
    intro s st _ hr
    rw [run_checked_eq_run [] s st hr]
    exact ⟨le_refl _, fun _ _ _ => ⟨rfl, rfl⟩⟩
  | cons op rest ih =>
    intro s st h0 hr
    obtain ⟨hb, hrest⟩ := run_checked_cons s st op rest hr
    obtain ⟨h1, h2⟩ := textures_stable_step s h0 op hb
    obtain ⟨h3, h4⟩ := ih (step s op) st (by omega) hrest
    refine ⟨?_, ?_⟩
    · exact le_trans h1 h3
    · intro i hi0 hi
      obtain ⟨a1, a2⟩ := h2 i hi0 hi
      obtain ⟨b1, b2⟩ := h4 i hi0 (by omega)
      exact ⟨b1.trans a1, b2.trans a2⟩

/-- A load inside the arrays that returns an index other than `-1` returns an index of
the texture table, below the `texture_count` after the call. -/
theorem load_texture_issues_index (s : State) (path : List Char) (tmp : Option Handle)
    (hc : 0 ≤ s.texture_count ∧ s.texture_count ≤ INT_MAX)
    (hb : load_texture_in_bounds s path tmp)
    (hret : (graphics_load_texture s path tmp).ret ≠ -1) :
    in_array GRAPHICS_MAX_TEXTURES (graphics_load_texture s path tmp).ret ∧
    (graphics_load_texture s path tmp).ret <
      (graphics_load_texture s path tmp).st.texture_count := by
  obtain ⟨h0, hmax⟩ := hc
  unfold load_texture_in_bounds at hb
  simp only at hb
  by_cases hf : find_texture s path s.texture_count.toNat 0 = -1
  · rw [if_pos hf] at hb
    by_cases hfull : s.texture_count > GRAPHICS_MAX_TEXTURES
    · exact absurd
        (by simp only [graphics_load_texture, if_pos hf, if_pos hfull]; exact hf) hret
    · cases tmp with
      | none =>
        exact absurd
          (by simp only [graphics_load_texture, if_pos hf, if_neg hfull]; exact hf) hret
      | some hd =>
        simp only [if_neg hfull, Option.isSome_some, if_true, in_array] at hb
        simp only [graphics_load_texture, if_pos hf, if_neg hfull, in_array]
        simp only [GRAPHICS_MAX_TEXTURES] at hb ⊢
        simp only [wrap32]
        omega
  · rw [if_neg hf] at hb
    have hr := find_texture_range s path hmax s.texture_count.toNat 0 (le_refl 0) hf
    simp only [graphics_load_texture, if_neg hf, in_array]
    omega

/-- Every call inside the arrays keeps the texture indices of the registered sprites
inside `[0, texture_count)`. -/
theorem spriteTexturesOk_step (s : State) (op : Op) (hcnt : CountsOk s)
    (hb : InBounds s op) (h : SpriteTexturesOk s) : SpriteTexturesOk (step s op) := by
  have hc := hcnt
  obtain ⟨t0, t5, s0, s64⟩ := hc
  simp only [GRAPHICS_MAX_TEXTURES, GRAPHICS_MAX_SPRITES] at t5 s64
  cases op with
  | load_texture path tmp =>
    obtain ⟨hgrow, _⟩ := textures_stable_step s t0 (Op.load_texture path tmp) hb
    obtain ⟨e1, e2⟩ := load_texture_sprites s path tmp
    intro i hi0 hi
    simp only [step] at hgrow hi ⊢
    rw [e1] at hi
    rw [e2]
    have := h i hi0 hi
    omega
  | add_sprite name fn ti =>
    by_cases c1 : ti < 0 ∨ ti > wrap32 (s.texture_count - 1)
    · simpa only [step, graphics_add_sprite, if_pos c1] using h
    · by_cases c2 : s.sprite_count ≥ GRAPHICS_MAX_SPRITES
      · simpa only [step, graphics_add_sprite, if_neg c1, if_pos c2] using h
      · by_cases c3 : wrap32 (s.sprite_frame_count + fn) > GRAPHICS_MAX_SPRITE_FRAMES
        · simpa only [step, graphics_add_sprite, if_neg c1, if_neg c2, if_pos c3] using h
        · have hw : wrap32 (s.sprite_count + 1) = s.sprite_count + 1 := by
            simp only [GRAPHICS_MAX_SPRITES] at c2
            simp only [wrap32]; omega
          have hti : 0 ≤ ti ∧ ti < s.texture_count := by
            simp only [wrap32] at c1; omega
          intro i hi0 hi
          simp only [step, graphics_add_sprite, if_neg c1, if_neg c2, if_neg c3, hw, store]
            at hi ⊢
          by_cases hnew : i = s.sprite_count
          · rw [if_pos hnew]; exact hti
          · rw [if_neg hnew]; exact h i hi0 (by omega)
  | add_sprite_frame idx ox oy fx fy fw fh =>
    by_cases c1 : idx < 0 ∨ idx > wrap32 (s.sprite_count - 1)
    · simpa only [step, graphics_add_sprite_frame, if_pos c1] using h
    · by_cases c2 : (s.sprite_table idx).current_frame_number ≥
          (s.sprite_table idx).maximum_frame_number
      · simpa only [step, graphics_add_sprite_frame, if_neg c1, if_pos c2] using h
      · intro i hi0 hi
        simp only [step, graphics_add_sprite_frame, if_neg c1, if_neg c2, store] at hi ⊢
        by_cases hsame : i = idx
        · rw [if_pos hsame]
          subst hsame
          exact h i hi0 hi
        · rw [if_neg hsame]; exact h i hi0 hi
  | draw_sprite idx x y f => exact h

/-- The same over a checked sequence of calls. -/
theorem spriteTexturesOk_run : ∀ (ops : List Op) (s st : State), CountsOk s →
    SpriteTexturesOk s → run_checked s ops = some st → SpriteTexturesOk st := by
  intro ops
  induction ops with
  | nil =>
    intro s st _ h hr
    rw [run_checked_eq_run [] s st hr]
    exact h
  | cons op rest ih =>
    intro s st hc h hr
    obtain ⟨hb, hrest⟩ := run_checked_cons s st op rest hr
    exact ih (step s op) st (countsOk_step s op hc hb) (spriteTexturesOk_step s op hc hb h)
      hrest

/-- In a state reached by calls inside the arrays, every registered sprite refers to an
element of the texture table below `texture_count`. -/
theorem sprite_texture_index_in_table (s : State) (hs : Reachable s) :
    ∀ i : Int, 0 ≤ i → i < s.sprite_count →
      in_array GRAPHICS_MAX_TEXTURES (s.sprite_table i).texture_index ∧
      (s.sprite_table i).texture_index < s.texture_count := by
  have hcnt := countsOk_of_reachable s hs
  obtain ⟨s0, ops, _, hr⟩ := hs
  have hinv : SpriteTexturesOk s := by
    refine spriteTexturesOk_run ops (graphics_init s0) s (countsOk_init s0) ?_ hr
    intro i hi0 hi
    simp only [graphics_init] at hi
    omega
  intro i hi0 hi
  obtain ⟨a, b⟩ := hinv i hi0 hi
  obtain ⟨_, t4, _, _⟩ := hcnt
  refine ⟨⟨a, ?_⟩, b⟩
  omega

/-- Effect of an accepted `graphics_add_sprite_frame` whose slot lies inside the frame
table: nothing is printed, the given origin and bounds are written into the slot
`frame_offset + current_frame_number`, that sprite's `current_frame_number` goes up by
1, and every other frame-table slot, the other fields of that sprite record, every other
sprite record, the counts, the sprite names and the texture registry are unchanged. -/
theorem add_sprite_frame_effect (s : State) (sprite_index origin_x origin_y frame_x frame_y
    frame_width frame_height : Int)
    (hsc : s.sprite_count ≤ GRAPHICS_MAX_SPRITES)
    (hv : 0 ≤ sprite_index ∧ sprite_index < s.sprite_count)
    (hcur : IsInt (s.sprite_table sprite_index).current_frame_number)
    (hmax : IsInt (s.sprite_table sprite_index).maximum_frame_number)
    (hlt : (s.sprite_table sprite_index).current_frame_number <
      (s.sprite_table sprite_index).maximum_frame_number)
    (_hslot : in_array GRAPHICS_MAX_SPRITE_FRAMES
      (wrap32 ((s.sprite_table sprite_index).frame_offset +
        (s.sprite_table sprite_index).current_frame_number))) :
    let sprite := s.sprite_table sprite_index
    let slot := wrap32 (sprite.frame_offset + sprite.current_frame_number)
    let r := graphics_add_sprite_frame s sprite_index origin_x origin_y frame_x frame_y
      frame_width frame_height
    r.2 = [] ∧
    (IsInt (sprite.frame_offset + sprite.current_frame_number) →
      slot = sprite.frame_offset + sprite.current_frame_number) ∧
    r.1.sprite_frame_table slot =
      ⟨⟨origin_x, origin_y⟩, ⟨frame_x, frame_y, frame_width, frame_height⟩⟩ ∧
    (∀ j : Int, j ≠ slot → r.1.sprite_frame_table j = s.sprite_frame_table j) ∧
    r.1.sprite_table sprite_index =
      { sprite with current_frame_number := sprite.current_frame_number + 1 } ∧
    (∀ j : Int, j ≠ sprite_index → r.1.sprite_table j = s.sprite_table j) ∧
    r.1.sprite_count = s.sprite_count ∧
    r.1.sprite_frame_count = s.sprite_frame_count ∧
    r.1.sprite_names = s.sprite_names ∧
    r.1.texture_count = s.texture_count ∧
    r.1.texture_table = s.texture_table ∧
    r.1.texture_names = s.texture_names := by
  intro sprite slot r
  have c1 : ¬ (sprite_index < 0 ∨ sprite_index > wrap32 (s.sprite_count - 1)) := by
    simp only [GRAPHICS_MAX_SPRITES, wrap32] at *; omega
  have c2 : ¬ ((s.sprite_table sprite_index).current_frame_number ≥
      (s.sprite_table sprite_index).maximum_frame_number) := by omega
  have hw : wrap32 ((s.sprite_table sprite_index).current_frame_number + 1) =
      (s.sprite_table sprite_index).current_frame_number + 1 := by
    simp only [IsInt, INT_MIN, INT_MAX, wrap32] at *; omega
  have hr : r = graphics_add_sprite_frame s sprite_index origin_x origin_y frame_x frame_y
      frame_width frame_height := rfl
  simp only [graphics_add_sprite_frame, if_neg c1, if_neg c2, hw] at hr
  rw [hr]
  refine ⟨rfl, ?_, ?_, ?_, ?_, ?_, rfl, rfl, rfl, rfl, rfl, rfl⟩
  · intro hi
    exact wrap32_of_isInt _ hi
  · simp only [store, slot, sprite, if_true]
  · intro j hj
    simp only [store, if_neg hj]
  · simp only [store, sprite, if_true]
  · intro j hj
    simp only [store, if_neg hj]

/-! ## Frame budget of a sprite -/

/-- C13 (refuted on the code). The claim says an accepted `graphics_add_sprite_frame`
writes the frame into slot `frame_offset + current_frame_number` of the frame table and
leaves everything else unchanged, for every valid sprite with
`current_frame_number < maximum_frame_number`.  In `negative_offset_state` sprite 1 is
valid with `0 < 3` and `frame_offset = -5` (the sprite before it was created with
`frame_number = -5`); the call is accepted and its write index is `-5 + 0 = -5`, which is
no element of the 256-element frame table: the record is written in front of the array,
onto other objects of the program. -/
theorem add_sprite_frame_writes_before_table :
    (0 ≤ (1 : Int) ∧ (1 : Int) < negative_offset_state.sprite_count) ∧
    (negative_offset_state.sprite_table 1).current_frame_number <
      (negative_offset_state.sprite_table 1).maximum_frame_number ∧
    (graphics_add_sprite_frame negative_offset_state 1 8 16 0 0 16 16).2 = [] ∧
    wrap32 ((negative_offset_state.sprite_table 1).frame_offset +
      (negative_offset_state.sprite_table 1).current_frame_number) = -5 ∧
    ¬ in_array GRAPHICS_MAX_SPRITE_FRAMES (-5) ∧
    ¬ InBounds negative_offset_state (Op.add_sprite_frame 1 8 16 0 0 16 16) ∧
    (step_checked negative_offset_state (Op.add_sprite_frame 1 8 16 0 0 16 16)).isNone
      = true := by
  decide

/-- C16 (refuted on the code). The claim says no call changes the handle or the key of
an already assigned texture index.  With the four indices 0 to 3 assigned
(`four_textures`, reached by calls inside the arrays), a fifth load of a decodable file
finds no match, passes the test `texture_count > GRAPHICS_MAX_TEXTURES` and stores at
index `texture_count = 4`: `texture_table[4]` and `texture_names[4]` are no elements of
the two 4-element arrays, so the handle and the terminator are written behind them, onto
the objects stored there. -/
theorem fifth_load_writes_behind_texture_arrays :
    (run_checked (graphics_init boot)
      [Op.load_texture "a.bmp".toList (some 1), Op.load_texture "b.bmp".toList (some 2),
       Op.load_texture "c.bmp".toList (some 3), Op.load_texture "d.bmp".toList (some 4)]).isSome
      = true ∧
    four_textures.texture_count = 4 ∧
    find_texture four_textures "e.bmp".toList four_textures.texture_count.toNat 0 = -1 ∧
    ¬ (four_textures.texture_count > GRAPHICS_MAX_TEXTURES) ∧
    (graphics_load_texture four_textures "e.bmp".toList (some 5)).out = [] ∧
    (graphics_load_texture four_textures "e.bmp".toList (some 5)).ret
      = four_textures.texture_count ∧
    ¬ in_array GRAPHICS_MAX_TEXTURES four_textures.texture_count ∧
    ¬ InBounds four_textures (Op.load_texture "e.bmp".toList (some 5)) ∧
    (step_checked four_textures (Op.load_texture "e.bmp".toList (some 5))).isNone = true := by
  decide

end Graphics
